import Mathlib

/-!
Verification of the gecko authorization middleware (`gecko/middleware.go`)
and the POSIX sub-path validator (`gecko/handleDir.go`).

The Go code is shallowly embedded: each Go function becomes a Lean
function over explicit request data (header values, route parameters,
URL string).  The iris context side effects are made observable through
the `MwResult` record: `outcome` is either `next` (the wrapped handler
runs, i.e. `ctx.Next()` was reached) or `rejected code message`
(an `ErrorResponse` was written and `ctx.StopExecution()` called);
`policyCalled` records whether `jwtHandler.GetAllowedResources` was
invoked, `coarseCalled` whether `CheckResourceServiceAccess` was
invoked, and `accessTarget` the resource path that `ParseAccess` was
evaluated at, when it was evaluated.
-/

namespace Gecko

/-- Go `strings.Split(s, sep)` for a one-character separator, on rune
lists: splits around every occurrence of `sep`; the empty input yields
one empty segment, exactly as in Go. -/
def splitOnChar (sep : Char) : List Char → List (List Char)
  | [] => [[]]
  | c :: rest =>
    if c = sep then
      [] :: splitOnChar sep rest
    else
      match splitOnChar sep rest with
      | [] => [[c]]
      | seg :: segs => (c :: seg) :: segs

/-- Go `strings.Split(s, sep)` for a one-character separator. -/
def goSplit (s : String) (sep : Char) : List String :=
  (splitOnChar sep s.data).map String.mk

/-- Embeds the part of `ErrorResponse` observable to a client:
the message and the HTTP status code of `newErrorResponse(msg, code, nil)`. -/
structure ErrorResponse where
  message : String
  code : Nat
deriving DecidableEq, Repr

/-- `newErrorResponse(message, code, nil)` from `response.go`. -/
def newErrorResponse (message : String) (code : Nat) : ErrorResponse :=
  { message := message, code := code }

/-- A Go `any` value as it can appear in the permitted-resource list
returned by `GetAllowedResources` (dynamic typing made explicit). -/
inductive GoValue where
  | str (s : String)
  | intVal (n : Int)
  | boolVal (b : Bool)
deriving DecidableEq, Repr

/-- Go `fmt.Sprintf("%v", v)` for the embedded `any` values. -/
def GoValue.format : GoValue → String
  | .str s => s
  | .intVal n => toString n
  | .boolVal b => if b then "true" else "false"

/-- The dynamic type test `v.(string)` succeeding. -/
def GoValue.isStr : GoValue → Bool
  | .str _ => true
  | _ => false

/-- A Go `error` returned by the policy client: either the structured
`*middleware.ServerError` (with `Message` and `StatusCode` fields), or
any other error value (only its text matters). -/
inductive GoError where
  | serverError (message : String) (statusCode : Nat)
  | plain (message : String)
deriving DecidableEq, Repr

/-- The injected `middleware.JWTHandler`.  The `prod` constructor embeds
the concrete `*middleware.ProdJWTHandler` type, which additionally has
the `CheckResourceServiceAccess` method; `nonProd` is any other
implementation of the interface (the type assertion
`jwtHandler.(*middleware.ProdJWTHandler)` fails on it). -/
inductive JWTHandler where
  | prod (getAllowedResources : String → String → String → Except GoError (List GoValue))
         (checkServiceAccess : String → String → String → String → Except GoError Bool)
  | nonProd (getAllowedResources : String → String → String → Except GoError (List GoValue))

/-- Interface dispatch of `jwtHandler.GetAllowedResources(token, method, service)`. -/
def JWTHandler.getAllowedResources : JWTHandler → String → String → String → Except GoError (List GoValue)
  | .prod g _ => g
  | .nonProd g => g

/-- What a middleware run does to the request pipeline. -/
inductive Outcome where
  | next
  | rejected (code : Nat) (message : String)
deriving DecidableEq, Repr

/-- Observable result of one middleware run (see module comment). -/
structure MwResult where
  outcome : Outcome
  policyCalled : Bool
  coarseCalled : Bool
  accessTarget : Option String
deriving DecidableEq, Repr

/-- A rejection that happened before any policy-client call. -/
def earlyReject (code : Nat) (message : String) : MwResult :=
  { outcome := .rejected code message, policyCalled := false,
    coarseCalled := false, accessTarget := none }

/-- `ParseAccess(resourceList, resource, method)` from `middleware.go`
lines 43-54: `nil` (here `none`) means allowed. -/
def ParseAccess (resourceList : List String) (resource : String) (method : String) :
    Option ErrorResponse :=
  if resourceList.length = 0 then
    some (newErrorResponse ("User is not allowed to " ++ method ++ " on any resource path") 403)
  else if resourceList.contains resource then
    none
  else
    some (newErrorResponse
      ("User is not allowed to " ++ method ++ " on resource path: " ++ resource) 403)

/-- `convertAnyToStringSlice(anySlice)` from `middleware.go` lines 56-67:
returns the string elements, or the 500 error naming the first
element whose `v.(string)` assertion fails. -/
def convertAnyToStringSlice : List GoValue → Except ErrorResponse (List String)
  | [] => .ok []
  | v :: rest =>
    match v with
    | .str s =>
      match convertAnyToStringSlice rest with
      | .error e => .error e
      | .ok tail => .ok (s :: tail)
    | v' => .error (newErrorResponse ("Element " ++ v'.format ++ " is not a string") 500)

/-- `(server *Server) GetProjectsFromToken(ctx, jwtHandler, method, service)`
from `middleware.go` lines 25-41, with the `Authorization` header value
passed explicitly. -/
def GetProjectsFromToken (jwtHandler : JWTHandler) (authHeader method service : String) :
    Except ErrorResponse (List GoValue) :=
  if authHeader ≠ "" then
    match jwtHandler.getAllowedResources authHeader method service with
    | .error e =>
      match e with
      | .serverError m s => .error (newErrorResponse m s)
      | .plain _ => .error (newErrorResponse "expecting error to be serverError type" 404)
    | .ok anyList => .ok anyList
  else
    .error (newErrorResponse "Auth Token not provided" 401)

/-- `(server *Server) GeneralAuthMware(jwtHandler, method, service)` from
`middleware.go` lines 114-168, applied to a request carrying
`authHeader` (the `Authorization` header), `projectId` (the route
parameter) and `url` (the request URL as printed by `%s`).
`project_split[0]`/`project_split[1]` are total (`getD`) but only
reached under the length-2 guard, exactly as in the source. -/
def GeneralAuthMware (jwtHandler : JWTHandler) (method service : String)
    (authHeader projectId url : String) : MwResult :=
  if authHeader = "" then
    earlyReject 400 "Authorization token not provided"
  else
    let project_split := goSplit projectId '-'
    if project_split.length ≠ 2 then
      earlyReject 404 ("Failed to parse request body: incorrect path " ++ url)
    else
      match jwtHandler.getAllowedResources authHeader method service with
      | .error (.serverError m s) =>
        { outcome := .rejected s m, policyCalled := true,
          coarseCalled := false, accessTarget := none }
      | .error (.plain _) =>
        { outcome := .rejected 404 "expecting error to be serverError type",
          policyCalled := true, coarseCalled := false, accessTarget := none }
      | .ok anyList =>
        match convertAnyToStringSlice anyList with
        | .error convErr =>
          { outcome := .rejected convErr.code convErr.message,
            policyCalled := true, coarseCalled := false, accessTarget := none }
        | .ok resourceList =>
          let resource :=
            "/programs/" ++ project_split.getD 0 "" ++ "/projects/" ++ project_split.getD 1 ""
          match ParseAccess resourceList resource method with
          | some e =>
            { outcome := .rejected e.code e.message, policyCalled := true,
              coarseCalled := false, accessTarget := some resource }
          | none =>
            { outcome := .next, policyCalled := true,
              coarseCalled := false, accessTarget := some resource }

/-- `(server *Server) BaseConfigsAuthMiddleware(jwtHandler, method, service, resourcePath)`
from `middleware.go` lines 170-214. -/
def BaseConfigsAuthMiddleware (jwtHandler : JWTHandler)
    (method service resourcePath : String) (authHeader : String) : MwResult :=
  if authHeader = "" then
    earlyReject 400 "Authorization token not provided"
  else
    match jwtHandler with
    | .nonProd _ =>
      earlyReject 500 "Internal server error: Invalid JWT handler configuration for this route"
    | .prod _ check =>
      match check authHeader method service resourcePath with
      | .error (.serverError m s) =>
        { outcome := .rejected s m, policyCalled := false,
          coarseCalled := true, accessTarget := none }
      | .error (.plain _) =>
        { outcome := .rejected 404 "expecting error to be serverError type",
          policyCalled := false, coarseCalled := true, accessTarget := none }
      | .ok false =>
        { outcome := .rejected 403
            ("User does not have required " ++ method ++ " permission on resource /programs"),
          policyCalled := false, coarseCalled := true, accessTarget := none }
      | .ok true =>
        { outcome := .next, policyCalled := false,
          coarseCalled := true, accessTarget := none }

/-- `(server *Server) ConfigAuthMiddleware(jwtHandler)` from
`middleware.go` lines 69-106.  In the explorer branch the source runs
`ConfigIDToProjectIDMware`, which copies the `configId` route parameter
into `projectId`, before invoking `GeneralAuthMware`; hence the
`configId` value is what `GeneralAuthMware` sees as `projectId`. -/
def ConfigAuthMiddleware (jwtHandler : JWTHandler)
    (configType method : String) (authHeader configId url : String) : MwResult :=
  if configType = "explorer" then
    if method = "GET" then
      GeneralAuthMware jwtHandler "read" "*" authHeader configId url
    else if method = "PUT" ∨ method = "DELETE" then
      GeneralAuthMware jwtHandler "create" "*" authHeader configId url
    else
      earlyReject 404
        ("Failed to parse request body: incorrect http method " ++ method ++ " on " ++ url)
  else
    if method = "GET" then
      { outcome := .next, policyCalled := false, coarseCalled := false, accessTarget := none }
    else if method = "PUT" ∨ method = "DELETE" then
      BaseConfigsAuthMiddleware jwtHandler "*" "*" "/programs" authHeader
    else
      earlyReject 404
        ("Failed to parse request body: unsupported http method " ++ method ++ " on " ++ url)

/-- Go `path.IsAbs(p)`: `len(p) > 0 && p[0] == '/'`. -/
def goPathIsAbs (p : String) : Bool :=
  match p.data with
  | [] => false
  | c :: _ => c = '/'

/-- One step of Go `path.Clean`'s element processing, on the stack of
already-emitted elements (kept reversed).  Empty and `.` elements are
dropped; `..` pops the previous real element, is dropped at the root of
a rooted path, and is kept when there is nothing left to pop in a
relative path (the stack then only holds `..` elements); any other
element is emitted. -/
def cleanPush (rooted : Bool) (acc : List (List Char)) (seg : List Char) : List (List Char) :=
  if seg = [] ∨ seg = ['.'] then acc
  else if seg = ['.', '.'] then
    match acc with
    | [] => if rooted then [] else [['.', '.']]
    | top :: rest => if top = ['.', '.'] then seg :: acc else rest
  else seg :: acc

/-- Interleaves `/` between path elements. -/
def joinSlash : List (List Char) → List Char
  | [] => []
  | e :: rest =>
    match rest with
    | [] => e
    | _ :: _ => e ++ '/' :: joinSlash rest

/-- Go `path.Clean(p)`: purely lexical simplification — iterates the
`/`-separated elements applying `cleanPush`, keeps the leading `/` of a
rooted path (under which leading `..` elements vanish), and turns an
empty result into `.` (or `/` for a rooted path). -/
def goPathClean (p : String) : String :=
  let rooted := goPathIsAbs p
  let elems := ((splitOnChar '/' p.data).foldl (cleanPush rooted) []).reverse
  if rooted then
    String.mk ('/' :: joinSlash elems)
  else if elems = [] then
    "."
  else
    String.mk (joinSlash elems)

/-- `isValidPosixPath(p)` from `handleDir.go` lines 121-139.
`strings.ContainsRune(p, 0)` and `strings.Contains(p, "\\")` become
membership of the character in `p.data`; `strings.HasPrefix` becomes
`List.isPrefixOf` on the character list. -/
def isValidPosixPath (p : String) : Bool :=
  if p.data.contains (Char.ofNat 0) then false
  else if !goPathIsAbs p then false
  else
    let cleaned := goPathClean p
    if p = "" ∨ cleaned = "." then false
    else if cleaned = ".." ∨ List.isPrefixOf "/..".data cleaned.data then false
    else if p.data.contains '\\' then false
    else true

/-! ## Fidelity checks of the embedded Go library functions

Concrete behaviors matching Go `strings.Split` and `path.Clean`. -/

example : goSplit "" '-' = [""] := by decide
example : goSplit "ohsu" '-' = ["ohsu"] := by decide
example : goSplit "a-b" '-' = ["a", "b"] := by decide
example : goSplit "a-b-c" '-' = ["a", "b", "c"] := by decide
example : goSplit "-b" '-' = ["", "b"] := by decide
example : goPathClean "" = "." := by decide
example : goPathClean "/" = "/" := by decide
example : goPathClean "/a/b/../c" = "/a/c" := by decide
example : goPathClean "/../x" = "/x" := by decide
example : goPathClean "/.." = "/" := by decide
example : goPathClean "a/.." = "." := by decide
example : goPathClean "../../a" = "../../a" := by decide
example : goPathClean "/..foo" = "/..foo" := by decide
example : goPathClean "//a/./b//" = "/a/b" := by decide
example : goPathClean "a/../../b" = "../b" := by decide
example : isValidPosixPath "/a/b" = true := by decide
example : isValidPosixPath "a/b" = false := by decide
example : isValidPosixPath "/..foo" = false := by decide
example : isValidPosixPath "/a\\b" = false := by decide
example : isValidPosixPath "/a/../.." = true := by decide

/-! ## Shared helper lemmas and concrete policy clients -/

/-- A `JWTHandler` that is not the `ProdJWTHandler` variant and whose
policy call succeeds with one permitted string. -/
def okPolicyHandler : JWTHandler :=
  .nonProd fun _ _ _ => .ok [.str "/programs/ohsu/projects/test"]

/-- A policy client failing with a structured `ServerError`. -/
def expiredPolicyHandler : JWTHandler :=
  .nonProd fun _ _ _ => .error (.serverError "token expired" 401)

/-- A policy client failing with a non-structured error. -/
def plainErrPolicyHandler : JWTHandler :=
  .nonProd fun _ _ _ => .error (.plain "generic error")

/-- A policy client returning a permitted list with a non-string element. -/
def badListPolicyHandler : JWTHandler :=
  .nonProd fun _ _ _ => .ok [.intVal 123]

theorem convertAnyToStringSlice_map_str (l : List String) :
    convertAnyToStringSlice (l.map GoValue.str) = .ok l := by
  induction l with
  | nil => rfl
  | cons a t ih => simp [convertAnyToStringSlice, ih]

/-! ## Claim theorems -/

/-- C1: `ParseAccess` is the spec's reference access decision: an empty
permitted list yields the 403 denial naming the action; an exact string
member yields `none` (allowed); anything else yields the 403 denial
naming the action and the target.  Membership is exact string equality:
a permitted wildcard-looking entry does not match a concrete path. -/
theorem parseAccess_reference_decision (permitted : List String) (target action : String) :
    (ParseAccess permitted target action =
      if permitted = [] then
        some (newErrorResponse ("User is not allowed to " ++ action ++ " on any resource path") 403)
      else if target ∈ permitted then
        none
      else
        some (newErrorResponse
          ("User is not allowed to " ++ action ++ " on resource path: " ++ target) 403))
    ∧ ParseAccess ["/programs/x/projects/*"] "/programs/x/projects/y" action =
        some (newErrorResponse
          ("User is not allowed to " ++ action ++ " on resource path: " ++ "/programs/x/projects/y") 403) := by
  constructor
  · by_cases h : permitted = []
    · subst h; rfl
    · by_cases hm : target ∈ permitted
      · simp [ParseAccess, h, hm]
      · simp [ParseAccess, h, hm]
  · rfl

/-- C2 counterexample: the handler-level token check `GetProjectsFromToken`
does not respond 400 "Authorization token not provided" on a missing
token — it returns a 401 error whose message is "Auth Token not
provided". -/
theorem getProjectsFromToken_missing_token_401 :
    GetProjectsFromToken okPolicyHandler "" "read" "*" =
      .error (newErrorResponse "Auth Token not provided" 401)
    ∧ (401 : Nat) ≠ 400
    ∧ "Auth Token not provided" ≠ "Authorization token not provided" :=
  ⟨rfl, by decide, by decide⟩

/-- C2 (amended): a request with an absent or empty Authorization header
is rejected by `GeneralAuthMware` and by `BaseConfigsAuthMiddleware`
with status 400 and message "Authorization token not provided", while
the handler-level check `GetProjectsFromToken` instead returns a 401
error response with message "Auth Token not provided". -/
theorem missing_token_responses (jwtHandler : JWTHandler)
    (method service resourcePath projectId url : String) :
    GeneralAuthMware jwtHandler method service "" projectId url =
      earlyReject 400 "Authorization token not provided"
    ∧ BaseConfigsAuthMiddleware jwtHandler method service resourcePath "" =
      earlyReject 400 "Authorization token not provided"
    ∧ GetProjectsFromToken jwtHandler "" method service =
      .error (newErrorResponse "Auth Token not provided" 401) :=
  ⟨rfl, rfl, rfl⟩

/-- C3: with a non-empty Authorization header, a `projectId` that does
not split on `-` into exactly two segments is rejected with 404 before
any policy call and without reaching the wrapped handler; when it
splits into exactly `[program, project]`, the target resource path the
access decision is evaluated at is `/programs/{program}/projects/{project}`
(empty segments included, they are not additionally rejected). -/
theorem generalAuthMware_path_derivation (jwtHandler : JWTHandler)
    (method service authHeader projectId url : String) (hauth : authHeader ≠ "") :
    ((goSplit projectId '-').length ≠ 2 →
      GeneralAuthMware jwtHandler method service authHeader projectId url =
        earlyReject 404 ("Failed to parse request body: incorrect path " ++ url))
    ∧ (∀ program project : String, ∀ strs : List String,
        goSplit projectId '-' = [program, project] →
        jwtHandler.getAllowedResources authHeader method service = .ok (strs.map GoValue.str) →
        (GeneralAuthMware jwtHandler method service authHeader projectId url).accessTarget =
          some ("/programs/" ++ program ++ "/projects/" ++ project)) := by
  constructor
  · intro hlen
    simp only [GeneralAuthMware, if_neg hauth]
    rw [if_pos hlen]
  · intro program project strs hsplit hpol
    simp only [GeneralAuthMware, if_neg hauth, hsplit, hpol,
      convertAnyToStringSlice_map_str]
    have h2 : ¬ ([program, project].length ≠ 2) := by simp
    rw [if_neg h2]
    split <;> rfl

/-- C3 witness: `"a-b-c"` (two hyphens) is rejected with 404; `"-b"`
splits into `["", "b"]` and derives `/programs//projects/b`. -/
theorem generalAuthMware_path_derivation_witness :
    GeneralAuthMware okPolicyHandler "read" "*" "t" "a-b-c" "/u" =
      earlyReject 404 ("Failed to parse request body: incorrect path " ++ "/u")
    ∧ (GeneralAuthMware okPolicyHandler "read" "*" "t" "-b" "/u").accessTarget =
      some ("/programs/" ++ "" ++ "/projects/" ++ "b") :=
  ⟨(generalAuthMware_path_derivation okPolicyHandler "read" "*" "t" "a-b-c" "/u"
      (by decide)).1 (by decide),
   (generalAuthMware_path_derivation okPolicyHandler "read" "*" "t" "-b" "/u"
      (by decide)).2 "" "b" ["/programs/ohsu/projects/test"] (by decide) rfl⟩

/-- C4: the checks of `GeneralAuthMware` are ordered — an empty
Authorization header is rejected with the 400 missing-token response
before anything else (in particular even when the `projectId` is also
malformed), and the policy client is never consulted when the header is
empty or the `projectId` does not split into exactly two segments. -/
theorem generalAuthMware_check_order (jwtHandler : JWTHandler)
    (method service authHeader projectId url : String) :
    (authHeader = "" →
      GeneralAuthMware jwtHandler method service authHeader projectId url =
        earlyReject 400 "Authorization token not provided")
    ∧ (authHeader = "" →
      (GeneralAuthMware jwtHandler method service authHeader projectId url).policyCalled = false)
    ∧ ((goSplit projectId '-').length ≠ 2 →
      (GeneralAuthMware jwtHandler method service authHeader projectId url).policyCalled = false)
    ∧ (authHeader = "" → (goSplit projectId '-').length ≠ 2 →
      (GeneralAuthMware jwtHandler method service authHeader projectId url).outcome =
        .rejected 400 "Authorization token not provided") := by
  refine ⟨?_, ?_, ?_, ?_⟩
  · intro h; simp [GeneralAuthMware, h]
  · intro h; simp [GeneralAuthMware, h, earlyReject]
  · intro hlen
    by_cases h : authHeader = ""
    · simp [GeneralAuthMware, h, earlyReject]
    · simp only [GeneralAuthMware, if_neg h]
      rw [if_pos hlen]
      rfl
  · intro h _
    simp [GeneralAuthMware, h, earlyReject]

/-- C4 witness: with both the token missing and the projectId malformed
the rejection is the 400 missing-token response, and the policy client
is not consulted for a malformed projectId even with a token. -/
theorem generalAuthMware_check_order_witness :
    GeneralAuthMware okPolicyHandler "read" "*" "" "ohsu" "/u" =
      earlyReject 400 "Authorization token not provided"
    ∧ (GeneralAuthMware okPolicyHandler "read" "*" "t" "ohsu" "/u").policyCalled = false
    ∧ (GeneralAuthMware okPolicyHandler "read" "*" "" "ohsu" "/u").outcome =
      .rejected 400 "Authorization token not provided" :=
  ⟨(generalAuthMware_check_order okPolicyHandler "read" "*" "" "ohsu" "/u").1 rfl,
   (generalAuthMware_check_order okPolicyHandler "read" "*" "t" "ohsu" "/u").2.2.1 (by decide),
   (generalAuthMware_check_order okPolicyHandler "read" "*" "" "ohsu" "/u").2.2.2 rfl (by decide)⟩

/-- C5: when the policy call fails inside `GeneralAuthMware`, a
structured `ServerError {message, statusCode}` is passed through as the
response status and message, and any other error yields 404
"expecting error to be serverError type"; in both cases the wrapped
handler is not reached. -/
theorem generalAuthMware_policy_error (jwtHandler : JWTHandler)
    (method service authHeader projectId url : String)
    (hauth : authHeader ≠ "") (hsplit : (goSplit projectId '-').length = 2) :
    (∀ m s, jwtHandler.getAllowedResources authHeader method service = .error (.serverError m s) →
      GeneralAuthMware jwtHandler method service authHeader projectId url =
        { outcome := .rejected s m, policyCalled := true,
          coarseCalled := false, accessTarget := none }
      ∧ (GeneralAuthMware jwtHandler method service authHeader projectId url).outcome ≠
          Outcome.next)
    ∧ (∀ m, jwtHandler.getAllowedResources authHeader method service = .error (.plain m) →
      GeneralAuthMware jwtHandler method service authHeader projectId url =
        { outcome := .rejected 404 "expecting error to be serverError type",
          policyCalled := true, coarseCalled := false, accessTarget := none }
      ∧ (GeneralAuthMware jwtHandler method service authHeader projectId url).outcome ≠
          Outcome.next) := by
  constructor
  · intro m s hpol
    have hres : GeneralAuthMware jwtHandler method service authHeader projectId url =
        { outcome := .rejected s m, policyCalled := true,
          coarseCalled := false, accessTarget := none } := by
      simp [GeneralAuthMware, hauth, hsplit, hpol]
    exact ⟨hres, by rw [hres]; simp⟩
  · intro m hpol
    have hres : GeneralAuthMware jwtHandler method service authHeader projectId url =
        { outcome := .rejected 404 "expecting error to be serverError type",
          policyCalled := true, coarseCalled := false, accessTarget := none } := by
      simp [GeneralAuthMware, hauth, hsplit, hpol]
    exact ⟨hres, by rw [hres]; simp⟩

/-- C5 witness: the structured error `{message: "token expired",
status: 401}` yields exactly 401 "token expired"; a generic error
yields 404 "expecting error to be serverError type". -/
theorem generalAuthMware_policy_error_witness :
    GeneralAuthMware expiredPolicyHandler "read" "*" "t" "a-b" "/u" =
      { outcome := .rejected 401 "token expired", policyCalled := true,
        coarseCalled := false, accessTarget := none }
    ∧ GeneralAuthMware plainErrPolicyHandler "read" "*" "t" "a-b" "/u" =
      { outcome := .rejected 404 "expecting error to be serverError type",
        policyCalled := true, coarseCalled := false, accessTarget := none } :=
  ⟨((generalAuthMware_policy_error expiredPolicyHandler "read" "*" "t" "a-b" "/u"
      (by decide) (by decide)).1 "token expired" 401 rfl).1,
   ((generalAuthMware_policy_error plainErrPolicyHandler "read" "*" "t" "a-b" "/u"
      (by decide) (by decide)).2 "generic error" rfl).1⟩

theorem convertAnyToStringSlice_first_bad (l : List GoValue)
    (h : ∃ v ∈ l, v.isStr = false) :
    ∃ pre v post, l = pre ++ v :: post ∧ (∀ u ∈ pre, u.isStr = true) ∧ v.isStr = false ∧
      convertAnyToStringSlice l =
        .error (newErrorResponse ("Element " ++ v.format ++ " is not a string") 500) := by
  induction l with
  | nil => simp at h
  | cons a t ih =>
    cases ha : a.isStr with
    | false =>
      refine ⟨[], a, t, rfl, by simp, ha, ?_⟩
      cases a with
      | str s => simp [GoValue.isStr] at ha
      | intVal n => rfl
      | boolVal b => rfl
    | true =>
      have h' : ∃ v ∈ t, v.isStr = false := by
        rcases h with ⟨v, hv, hvs⟩
        rcases List.mem_cons.mp hv with hva | hvt
        · rw [hva] at hvs; rw [hvs] at ha; exact absurd ha (by simp)
        · exact ⟨v, hvt, hvs⟩
      rcases ih h' with ⟨pre, v, post, heq, hpre, hv, hconv⟩
      refine ⟨a :: pre, v, post, by rw [heq, List.cons_append], ?_, hv, ?_⟩
      · intro u hu
        rcases List.mem_cons.mp hu with hua | hup
        · rw [hua]; exact ha
        · exact hpre u hup
      · cases a with
        | str s => simp [convertAnyToStringSlice, hconv]
        | intVal n => simp [GoValue.isStr] at ha
        | boolVal b => simp [GoValue.isStr] at ha

/-- C6: when the policy client returns a permitted list containing a
non-string element, `GeneralAuthMware` responds 500 with the message
naming the first non-string element, and the access decision is never
evaluated (`accessTarget = none`). -/
theorem generalAuthMware_nonstring_element (jwtHandler : JWTHandler)
    (method service authHeader projectId url : String) (anyList : List GoValue)
    (hauth : authHeader ≠ "") (hsplit : (goSplit projectId '-').length = 2)
    (hpol : jwtHandler.getAllowedResources authHeader method service = .ok anyList)
    (hbad : ∃ v ∈ anyList, v.isStr = false) :
    ∃ pre v post, anyList = pre ++ v :: post ∧ (∀ u ∈ pre, u.isStr = true) ∧ v.isStr = false ∧
      GeneralAuthMware jwtHandler method service authHeader projectId url =
        { outcome := .rejected 500 ("Element " ++ v.format ++ " is not a string"),
          policyCalled := true, coarseCalled := false, accessTarget := none } := by
  rcases convertAnyToStringSlice_first_bad anyList hbad with ⟨pre, v, post, heq, hpre, hv, hconv⟩
  refine ⟨pre, v, post, heq, hpre, hv, ?_⟩
  simp [GeneralAuthMware, hauth, hsplit, hpol, hconv, newErrorResponse]

/-- C6 witness: the permitted list `[123]` yields 500
"Element 123 is not a string" and no access decision. -/
theorem generalAuthMware_nonstring_element_witness :
    ∃ pre v post,
      ([GoValue.intVal 123] : List GoValue) = pre ++ v :: post
      ∧ (∀ u ∈ pre, u.isStr = true) ∧ v.isStr = false
      ∧ GeneralAuthMware badListPolicyHandler "read" "*" "t" "a-b" "/u" =
        { outcome := .rejected 500 ("Element " ++ v.format ++ " is not a string"),
          policyCalled := true, coarseCalled := false, accessTarget := none } :=
  generalAuthMware_nonstring_element badListPolicyHandler "read" "*" "t" "a-b" "/u"
    [GoValue.intVal 123] (by decide) (by decide) rfl
    ⟨GoValue.intVal 123, by simp, rfl⟩

/-- C7 counterexample: the message written when `BaseConfigsAuthMiddleware`
is given a non-`ProdJWTHandler` is
"Internal server error: Invalid JWT handler configuration for this route",
which is not the claimed "invalid policy-client configuration". -/
theorem baseConfigs_nonprod_message_differs :
    (BaseConfigsAuthMiddleware okPolicyHandler "*" "*" "/programs" "t").outcome =
      .rejected 500 "Internal server error: Invalid JWT handler configuration for this route"
    ∧ "Internal server error: Invalid JWT handler configuration for this route" ≠
      "invalid policy-client configuration" :=
  ⟨rfl, by decide⟩

/-- C7 (amended): for every `jwtHandler` that is not the concrete
`ProdJWTHandler` variant, `BaseConfigsAuthMiddleware` — given a
non-empty Authorization header — fails closed with status 500 and
message "Internal server error: Invalid JWT handler configuration for
this route"; it never calls `CheckResourceServiceAccess`
(`coarseCalled = false`) and never reaches the wrapped handler. -/
theorem baseConfigs_nonprod_fails_closed
    (getRes : String → String → String → Except GoError (List GoValue))
    (method service resourcePath authHeader : String) (hauth : authHeader ≠ "") :
    BaseConfigsAuthMiddleware (.nonProd getRes) method service resourcePath authHeader =
      earlyReject 500
        "Internal server error: Invalid JWT handler configuration for this route" := by
  unfold BaseConfigsAuthMiddleware
  rw [if_neg hauth]

/-- C7 witness. -/
theorem baseConfigs_nonprod_fails_closed_witness :
    BaseConfigsAuthMiddleware
        (.nonProd fun _ _ _ => .ok [.str "/programs/ohsu/projects/test"])
        "*" "*" "/programs" "t" =
      earlyReject 500
        "Internal server error: Invalid JWT handler configuration for this route" :=
  baseConfigs_nonprod_fails_closed _ "*" "*" "/programs" "t" (by decide)

/-- C8: for a GET request whose `configType` is not "explorer",
`ConfigAuthMiddleware` immediately hands control to the wrapped handler
with no policy consultation, and its result is independent of the
Authorization header (absent or not). -/
theorem configAuth_global_get_ignores_token (jwtHandler : JWTHandler)
    (configType : String) (hct : configType ≠ "explorer")
    (authHeader1 authHeader2 configId url : String) :
    ConfigAuthMiddleware jwtHandler configType "GET" authHeader1 configId url =
      { outcome := .next, policyCalled := false, coarseCalled := false, accessTarget := none }
    ∧ ConfigAuthMiddleware jwtHandler configType "GET" authHeader1 configId url =
      ConfigAuthMiddleware jwtHandler configType "GET" authHeader2 configId url := by
  have h : ∀ a : String, ConfigAuthMiddleware jwtHandler configType "GET" a configId url =
      { outcome := .next, policyCalled := false, coarseCalled := false,
        accessTarget := none } := by
    intro a
    unfold ConfigAuthMiddleware
    rw [if_neg hct, if_pos rfl]
  exact ⟨h authHeader1, (h authHeader1).trans (h authHeader2).symm⟩

/-- C8 witness: `configType = "sidebar"`, with and without a token. -/
theorem configAuth_global_get_ignores_token_witness :
    ConfigAuthMiddleware okPolicyHandler "sidebar" "GET" "" "c" "/u" =
      { outcome := .next, policyCalled := false, coarseCalled := false, accessTarget := none }
    ∧ ConfigAuthMiddleware okPolicyHandler "sidebar" "GET" "" "c" "/u" =
      ConfigAuthMiddleware okPolicyHandler "sidebar" "GET" "tok" "c" "/u" :=
  configAuth_global_get_ignores_token okPolicyHandler "sidebar" (by decide) "" "tok" "c" "/u"

/-- C10: for every HTTP method other than GET, PUT and DELETE,
`ConfigAuthMiddleware` fails closed in both the explorer and the
global-config branch: it writes an error response whose status is 404
or 405 (in this code always 404), stops, and never consults any policy
check (`policyCalled = coarseCalled = false`) or the wrapped handler. -/
theorem configAuth_unsupported_method (jwtHandler : JWTHandler)
    (configType method authHeader configId url : String)
    (hg : method ≠ "GET") (hp : method ≠ "PUT") (hd : method ≠ "DELETE") :
    ∃ code msg,
      ConfigAuthMiddleware jwtHandler configType method authHeader configId url =
        earlyReject code msg
      ∧ (code = 404 ∨ code = 405) := by
  have hpd : ¬ (method = "PUT" ∨ method = "DELETE") := by
    intro h; rcases h with h | h
    · exact hp h
    · exact hd h
  unfold ConfigAuthMiddleware
  by_cases hct : configType = "explorer"
  · rw [if_pos hct, if_neg hg, if_neg hpd]
    exact ⟨404, _, rfl, Or.inl rfl⟩
  · rw [if_neg hct, if_neg hg, if_neg hpd]
    exact ⟨404, _, rfl, Or.inl rfl⟩

/-- C10 witness: PATCH is rejected in the explorer branch. -/
theorem configAuth_unsupported_method_witness :
    ∃ code msg,
      ConfigAuthMiddleware okPolicyHandler "explorer" "PATCH" "t" "a-b" "/u" =
        earlyReject code msg
      ∧ (code = 404 ∨ code = 405) :=
  configAuth_unsupported_method okPolicyHandler "explorer" "PATCH" "t" "a-b" "/u"
    (by decide) (by decide) (by decide)

theorem goPathIsAbs_ne_empty (p : String) (h : goPathIsAbs p = true) : p ≠ "" := by
  intro he
  rw [he] at h
  exact absurd h (by decide)

theorem goPathClean_rooted_ne_empty (p : String) (h : goPathIsAbs p = true) :
    goPathClean p ≠ "" := by
  unfold goPathClean
  simp only [h, if_true]
  intro hc
  exact List.cons_ne_nil _ _ (congrArg String.data hc)

/-- C9: `isValidPosixPath` returns `true` exactly when the path has no
embedded null byte, is absolute, its lexically cleaned form (Go
`path.Clean`) is none of `""`, `"."`, `".."`, does not begin with
`"/.."`, and the path contains no backslash.  (The source also tests
the raw path against `""`, but an absolute path is never empty, so the
characterization in terms of the cleaned form is exact.) -/
theorem isValidPosixPath_spec (p : String) :
    isValidPosixPath p = true ↔
      (p.data.contains (Char.ofNat 0) = false
       ∧ goPathIsAbs p = true
       ∧ goPathClean p ≠ ""
       ∧ goPathClean p ≠ "."
       ∧ goPathClean p ≠ ".."
       ∧ List.isPrefixOf "/..".data (goPathClean p).data = false
       ∧ p.data.contains '\\' = false) := by
  by_cases h1 : Char.ofNat 0 ∈ p.data
  · simp [isValidPosixPath, h1]
  · by_cases h2 : goPathIsAbs p = true
    · have hne : p ≠ "" := goPathIsAbs_ne_empty p h2
      have hcl : goPathClean p ≠ "" := goPathClean_rooted_ne_empty p h2
      by_cases h4 : goPathClean p = "."
      · simp [isValidPosixPath, h1, h2, h4, hne]
      · by_cases h5 : goPathClean p = ".."
        · simp [isValidPosixPath, h1, h2, h4, h5, hne]
        · by_cases h6 : "/..".data <+: (goPathClean p).data
          · simp [isValidPosixPath, h1, h2, h4, h5, h6, hne]
          · by_cases h7 : '\\' ∈ p.data
            · simp [isValidPosixPath, h1, h2, h4, h5, h6, h7, hne]
            · have h6' : List.isPrefixOf "/..".data (goPathClean p).data = false := by
                rw [Bool.eq_false_iff]
                intro hb
                exact h6 (by simpa using hb)
              simp [isValidPosixPath, h1, h2, h4, h5, h6, h6', h7, hne, hcl]
    · have h2' : goPathIsAbs p = false := by simpa using h2
      simp [isValidPosixPath, h1, h2']

end Gecko
